import Mathlib

/-!
Verification development for the training driver `train_resnet_cifar10.py`.

The script is pure orchestration: parse arguments, validate a few string
enums, select a model by name, build artifact paths, dump the configuration
to JSON, construct callbacks and call the framework training loop.  We embed
it as a function from the parsed argument record to the sequence of
externally visible actions it performs (an `Event` trace) together with the
Python exception, if any, that terminates the run.  Calls into the
deep-learning framework and the collaborator modules (`data_loaders`,
`models`) are opaque effects and appear as single events tagged with the
arguments the script passes to them.
-/

namespace TrainResnetCifar10

/-- Python exceptions that the script can raise itself.  `unboundLocalError x`
models Python raising `UnboundLocalError` when the local variable `x` is read
without ever having been assigned on the executed path. -/
inductive PyError where
  | argumentTypeError (msg : String)
  | valueError (msg : String)
  | unboundLocalError (name : String)
deriving DecidableEq, Repr

/-- Symbolic names for the array-valued data that flows into `model.fit`
(lines 240-253 of the source): the full CIFAR-10 train split, the two halves
produced by `train_test_split`, and the CIFAR-10 test set. -/
inductive DataRef where
  | fullTrain
  | trainSplit
  | valSplit
  | testSet
deriving DecidableEq, Repr

/-- Externally visible actions of one run of `main`, in program order. -/
inductive Event where
  | loadDataSeq
  | setSeed
  | buildModel (name : String)
  | makeDirs (dir : String)
  | writeFile (path : String)
  | createOptimizer
  | createLRScheduler (fn : String)
  | compileModel (name : String)
  | createCSVLogger (path : String)
  | createTensorBoard (dir : String)
  | createCheckpoint (path : String)
  | loadCifar10
  | trainTestSplit
  | fit (train : DataRef) (validation : DataRef)
deriving DecidableEq, Repr

/-- Recognizer for configuration-dump events (`json.dump` at line 190). -/
def Event.isWriteFile : Event → Bool
  | .writeFile _ => true
  | _ => false

/-- The parsed command-line arguments (the `args` namespace built by
`cmd_parser`, lines 47-84).  Python float parameters are carried as exact
rationals; the field defaults mirror the argparse defaults (the argparse
default for `seed` is a random number, fixed here to 42). -/
structure Args where
  dataset : String := "mnist"
  num_classes : Nat := 10
  model_name : String := "NoModel"
  n : Int := 3
  version : Int := 1
  batch_size : Nat := 32
  seed : Nat := 42
  validation_split : ℚ := 1/5
  norm : Bool := false
  epochs : Nat := 100
  optimizer_name : String := "SGD"
  learning_rate : ℚ := 1/10
  weight_decay : ℚ := 1/10000
  momentum : ℚ := 9/10
  lr_schedule : String := "no_schedule"
  attention : Bool := false
  attention_type : String := "official"
deriving Repr

/-- `string2bool` (lines 33-42): the converter used for the `--attention`
flag.  An `ArgumentTypeError` is the `.error` case; the Python function body
has no `return` after the two tested branches, so the impossible fall-through
returns Python `None`, modelled as `.ok none`. -/
def string2bool (string : String) : Except PyError (Option Bool) :=
  if (["False", "True"].contains string) = false then
    .error (.argumentTypeError ("input(=" ++ string ++ ") NOT in [False, True]!"))
  else if string = "False" then .ok (some false)
  else if string = "True" then .ok (some true)
  else .ok none

/-- `resnet_family` (lines 112-113). -/
def resnet_family : List String :=
  ["ResNet18", "ResNet34", "ResNet50", "ResNet101", "ResNet152"]

/-- `available_models` (lines 114-115). -/
def available_models : List String :=
  ["LeNet5", "AttentionLeNet5", "LeCunLeNet5"] ++ resnet_family

/-- The `lr_schedule_fn` local of `main` (lines 106-109).  The source has no
`else` branch, so for any other `lr_schedule` string the local is never
assigned, modelled by `none`. -/
def lrScheduleFnOf (lr_schedule : String) : Option String :=
  if lr_schedule = "cifar10_scheduler" then some "cifar10_scheduler"
  else if lr_schedule = "keras_lr_scheduler" then some "keras_lr_scheduler"
  else none

/-- The attention rewrite of the `model_name` local (lines 117-121). -/
def effectiveModelName (args : Args) : String :=
  if args.attention then
    if args.attention_type = "senet" then "AttentionLeNet5_SeNet"
    else if args.attention_type = "official" then "AttentionLeNet5_Official"
    else args.model_name
  else args.model_name

/-- The depth computation of the CIFAR-10 branch (lines 167-170).  The source
assigns `depth` under `if version == 1` / `elif version == 2` with no `else`,
so any other version would leave `depth` unbound, modelled by `none`. -/
def computeDepth (n version : Int) : Option Int :=
  if version = 1 then some (n * 6 + 2)
  else if version = 2 then some (n * 9 + 2)
  else none

/-- Result of the model-setup section of `main` (lines 143-178): the `model`
local if it was assigned (tagged by the name of the architecture built), the
final value of the `model_name` local, and the build events performed. -/
structure ModelSetup where
  model : Option String
  model_name : String
  events : List Event
deriving DecidableEq, Repr

/-- The model-setup section of `main` (lines 143-178), given the already
rewritten `model_name` local.  On `"mnist"` the availability check tests the
original `args.model_name` (line 147) while the ResNet test uses the rewritten
local (line 151); a non-ResNet name leaves `model` unassigned.  On `"cifar10"`
the local `version` is hardcoded to 1 (line 164) and `model_name` is
reassigned from `depth` and `version` (line 175).  Any other dataset builds
the model unconditionally (lines 176-178). -/
def setupModel (args : Args) (model_name : String) : Except PyError ModelSetup :=
  if args.dataset = "mnist" then
    if (available_models.contains args.model_name) = false then
      .error (.valueError ("args.model_name " ++ args.model_name ++ " NOT in available_models"))
    else if resnet_family.contains model_name then
      .ok ⟨some model_name, model_name, [.buildModel model_name]⟩
    else
      .ok ⟨none, model_name, []⟩
  else if args.dataset = "cifar10" then
    let version : Int := 1
    match computeDepth args.n version with
    | some depth =>
        let mn := "ResNet" ++ toString depth ++ "v" ++ toString version ++ "_CIFAR10"
        .ok ⟨some mn, mn, [.buildModel mn]⟩
    | none => .error (.unboundLocalError "depth")
  else
    .ok ⟨some model_name, model_name, [.buildModel model_name]⟩

/-- `os.path.join` with the POSIX separator. -/
def joinPath (a b : String) : String := a ++ "/" ++ b

/-- The artifacts prefix `os.path.join("~", "Documents", "DeepLearningData")`
(line 182). -/
def prefixPath : String := joinPath (joinPath "~" "Documents") "DeepLearningData"

/-- `os.path.expanduser`: replaces a leading `~` with the home directory. -/
def expanduser (home path : String) : String :=
  if path.startsWith "~" then home ++ path.drop 1 else path

/-- The `subfix` run identifier (lines 183-184): the join of exactly the
dataset name, the (final) model name, the `b{batch_size}-e{epochs}-lr{lr}`
component, the optimizer name and the timestamp. -/
def subfixOf (dataset model_name : String) (batch_size epochs : Nat)
    (learning_rate : ℚ) (optimizer_name date_time : String) : String :=
  joinPath (joinPath (joinPath (joinPath dataset model_name)
      ("b" ++ toString batch_size ++ "-e" ++ toString epochs ++ "-lr" ++ toString learning_rate))
    optimizer_name) date_time

/-- `ckpt_dir` (line 185). -/
def ckptDirOf (home dataset model_name : String) (batch_size epochs : Nat)
    (learning_rate : ℚ) (optimizer_name date_time : String) : String :=
  expanduser home (joinPath (joinPath prefixPath
    (subfixOf dataset model_name batch_size epochs learning_rate optimizer_name date_time)) "ckpts")

/-- `log_dir` (line 186). -/
def logDirOf (home dataset model_name : String) (batch_size epochs : Nat)
    (learning_rate : ℚ) (optimizer_name date_time : String) : String :=
  expanduser home (joinPath (joinPath prefixPath
    (subfixOf dataset model_name batch_size epochs learning_rate optimizer_name date_time)) "logs")

/-- `ckpt_filename` (line 214); the literal braces of the Keras filename
template are kept as text. -/
def ckptFilename (model_name : String) : String :=
  model_name ++ "-epoch-\x7bepoch:03d\x7d-categorical_accuracy-\x7bcategorical_accuracy:.4f\x7d.h5"

/-- The tail of the event trace after the optimizer is created (lines
196-253): the `LearningRateScheduler` construction (which reads the possibly
unbound `lr_schedule_fn`), `model.compile` (which reads the possibly unbound
`model`), the callback constructions, the second data load and the `fit`
call, whose `validation_data` argument is always the test set. -/
def tailEvents (args : Args) (ms : ModelSetup) (ckpt_dir log_dir : String) : List Event :=
  match lrScheduleFnOf args.lr_schedule with
  | none => []
  | some fn =>
    Event.createLRScheduler fn ::
      match ms.model with
      | none => []
      | some mdl =>
        [Event.compileModel mdl,
         Event.createCSVLogger (joinPath log_dir "training.log.csv"),
         Event.createTensorBoard log_dir,
         Event.createCheckpoint (joinPath ckpt_dir (ckptFilename ms.model_name)),
         Event.loadCifar10] ++
        (if args.validation_split > 0 then
          [Event.trainTestSplit, Event.fit DataRef.trainSplit DataRef.testSet]
        else
          [Event.fit DataRef.fullTrain DataRef.testSet])

/-- The exception, if any, raised after the path section (lines 196-253):
reading the unbound `lr_schedule_fn` at the `LearningRateScheduler` call, or
the unbound `model` at `model.compile`. -/
def errAfterPaths (args : Args) (ms : ModelSetup) : Option PyError :=
  match lrScheduleFnOf args.lr_schedule with
  | none => some (.unboundLocalError "lr_schedule_fn")
  | some _ =>
    match ms.model with
    | none => some (.unboundLocalError "model")
    | some _ => none

/-- `main` (lines 95-253) as a trace semantics: the events the run performs,
and the exception that terminates it, if any.  `home` is the expansion of
`~`, `date_time` the timestamp of line 181.  The `attention_type` check is
the guard of `cmd_parser` (lines 88-91), executed before anything else. -/
def main (home : String) (args : Args) (date_time : String) :
    List Event × Option PyError :=
  if (["official", "senet"].contains args.attention_type) = false then
    ([], some (.valueError
      ("args.attention_type " ++ args.attention_type ++ " NOT in [official, senet]")))
  else
    let lr_schedule_fn := lrScheduleFnOf args.lr_schedule
    let model_name := effectiveModelName args
    let ev0 : List Event := [.loadDataSeq, .setSeed]
    match setupModel args model_name with
    | .error e => (ev0, some e)
    | .ok ms =>
      let ckpt_dir := ckptDirOf home args.dataset ms.model_name args.batch_size
        args.epochs args.learning_rate args.optimizer_name date_time
      let log_dir := logDirOf home args.dataset ms.model_name args.batch_size
        args.epochs args.learning_rate args.optimizer_name date_time
      let ev1 := ev0 ++ ms.events ++
        [.makeDirs ckpt_dir, .makeDirs log_dir,
         .writeFile (joinPath log_dir "config.json"), .createOptimizer]
      match lr_schedule_fn with
      | none => (ev1, some (.unboundLocalError "lr_schedule_fn"))
      | some fn =>
        let ev2 := ev1 ++ [.createLRScheduler fn]
        match ms.model with
        | none => (ev2, some (.unboundLocalError "model"))
        | some mdl =>
          let ev3 := ev2 ++
            [.compileModel mdl,
             .createCSVLogger (joinPath log_dir "training.log.csv"),
             .createTensorBoard log_dir,
             .createCheckpoint (joinPath ckpt_dir (ckptFilename ms.model_name)),
             .loadCifar10]
          if args.validation_split > 0 then
            (ev3 ++ [.trainTestSplit, .fit DataRef.trainSplit DataRef.testSet], none)
          else
            (ev3 ++ [.fit DataRef.fullTrain DataRef.testSet], none)

/-- `a` occurs strictly before `b` in the trace `tr`. -/
def eventBefore (tr : List Event) (a b : Event) : Prop :=
  ∃ l₁ l₂ l₃, tr = l₁ ++ a :: (l₂ ++ b :: l₃)

/-- Example invocation: defaults except `--model_name LeNet5`. -/
def lenetArgs : Args := { model_name := "LeNet5" }

/-- Example invocation: `--model_name LeNet5 --lr_schedule cifar10_scheduler`. -/
def lenetSchedArgs : Args := { model_name := "LeNet5", lr_schedule := "cifar10_scheduler" }

/-- Example invocation: `--model_name ResNet18 --lr_schedule cifar10_scheduler
--validation_split 1`. -/
def resnetArgs : Args :=
  { model_name := "ResNet18", lr_schedule := "cifar10_scheduler", validation_split := 1 }

/-- Model setup outcome for `lenetArgs` and `lenetSchedArgs`: `LeNet5` is
accepted but no model object is assigned. -/
def msLeNet : ModelSetup := ⟨none, "LeNet5", []⟩

/-- Model setup outcome for `resnetArgs`: the `ResNet18` model is built. -/
def msResNet : ModelSetup := ⟨some "ResNet18", "ResNet18", [Event.buildModel "ResNet18"]⟩

/-! ## Helper lemmas -/

/-- Any successful model setup yields either a record with a built model and a
single build event, or a record with no model and no events. -/
theorem setupModel_cases (args : Args) (mn : String) (ms : ModelSetup)
    (h : setupModel args mn = .ok ms) :
    (∃ nm, ms = ⟨some nm, nm, [Event.buildModel nm]⟩) ∨ ms = ⟨none, mn, []⟩ := by
  have hc : computeDepth args.n (1 : Int) = some (args.n * 6 + 2) := by
    simp [computeDepth]
  unfold setupModel at h
  split at h
  · split at h
    · exact Except.noConfusion h
    · split at h
      · exact Or.inl ⟨mn, (Except.ok.inj h).symm⟩
      · exact Or.inr (Except.ok.inj h).symm
  · split at h
    · simp only [hc, Except.ok.injEq] at h
      exact Or.inl ⟨_, h.symm⟩
    · exact Or.inl ⟨mn, (Except.ok.inj h).symm⟩

/-- Events of a successful model setup are build events only. -/
theorem setupModel_events_build (args : Args) (mn : String) (ms : ModelSetup)
    (h : setupModel args mn = .ok ms) (e : Event) (he : e ∈ ms.events) :
    ∃ nm, e = Event.buildModel nm := by
  rcases setupModel_cases args mn ms h with ⟨nm, rfl⟩ | rfl
  · simp at he
    exact ⟨nm, he⟩
  · simp at he

/-- On the `"mnist"` dataset, a successful setup keeps the rewritten model
name, assigns the `model` local exactly when that name is in the ResNet
family, and implies the original `args.model_name` passed the availability
check. -/
theorem setupModel_mnist (args : Args) (mn : String) (ms : ModelSetup)
    (hd : args.dataset = "mnist") (h : setupModel args mn = .ok ms) :
    ms.model_name = mn ∧
    ms.model = (if mn ∈ resnet_family then some mn else none) ∧
    args.model_name ∈ available_models := by
  rw [setupModel, hd] at h
  simp only [if_pos rfl] at h
  by_cases hav : args.model_name ∈ available_models
  · by_cases hr : mn ∈ resnet_family
    · simp [hav, hr] at h
      simp [hav, hr, ← h]
    · simp [hav, hr] at h
      simp [hav, hr, ← h]
  · exfalso
    simp [hav] at h

/-- The trace tail contains no directory creation. -/
theorem tail_no_makeDirs (args : Args) (ms : ModelSetup) (C L d : String) :
    Event.makeDirs d ∉ tailEvents args ms C L := by
  unfold tailEvents
  split
  · simp
  · split
    · simp
    · split <;> simp

/-- The trace tail contains no file write. -/
theorem tail_no_writeFile (args : Args) (ms : ModelSetup) (C L p : String) :
    Event.writeFile p ∉ tailEvents args ms C L := by
  unfold tailEvents
  split
  · simp
  · split
    · simp
    · split <;> simp

/-- Any `fit` call in the trace tail takes the test set as validation data
and never takes the held-out validation split as either argument. -/
theorem tail_fit (args : Args) (ms : ModelSetup) (C L : String) (t v : DataRef)
    (h : Event.fit t v ∈ tailEvents args ms C L) :
    v = DataRef.testSet ∧ t ≠ DataRef.valSplit ∧ v ≠ DataRef.valSplit := by
  unfold tailEvents at h
  split at h
  · simp at h
  · split at h
    · simp at h
    · split at h <;> simp at h <;>
        rcases h with ⟨rfl, rfl⟩ <;> exact ⟨rfl, by simp, by simp⟩

/-- Any checkpoint-callback construction in the trace tail uses the path
under `ckpt_dir` built from the final model name. -/
theorem tail_ckpt (args : Args) (ms : ModelSetup) (C L p : String)
    (h : Event.createCheckpoint p ∈ tailEvents args ms C L) :
    p = joinPath C (ckptFilename ms.model_name) := by
  unfold tailEvents at h
  split at h
  · simp at h
  · split at h
    · simp at h
    · split at h <;> simp at h <;> exact h

/-- If `lr_schedule_fn` was never assigned the tail is empty. -/
theorem tail_of_no_schedule (args : Args) (ms : ModelSetup) (C L : String)
    (h : lrScheduleFnOf args.lr_schedule = none) :
    tailEvents args ms C L = [] := by
  unfold tailEvents
  rw [h]

/-- If the `model` local was never assigned the tail stops at the
scheduler construction: no compile and no fit happen. -/
theorem tail_of_no_model (args : Args) (ms : ModelSetup) (C L : String) (fn : String)
    (h : lrScheduleFnOf args.lr_schedule = some fn) (hm : ms.model = none) :
    tailEvents args ms C L = [Event.createLRScheduler fn] := by
  unfold tailEvents
  rw [h, hm]

/-- The trace tail performs no configuration write (count form). -/
theorem tail_countP_writeFile (args : Args) (ms : ModelSetup) (C L : String) :
    (tailEvents args ms C L).countP (fun e => e.isWriteFile) = 0 := by
  rw [List.countP_eq_zero]
  intro e he
  cases e
  case writeFile p => exact absurd he (tail_no_writeFile args ms C L p)
  all_goals simp [Event.isWriteFile]

/-- The model-setup events perform no configuration write (count form). -/
theorem setup_countP_writeFile (args : Args) (mn : String) (ms : ModelSetup)
    (h : setupModel args mn = .ok ms) :
    ms.events.countP (fun e => e.isWriteFile) = 0 := by
  rcases setupModel_cases args mn ms h with ⟨nm, rfl⟩ | rfl <;> rfl

/-- Characterization of `main` on runs that pass the `attention_type` guard
and whose model setup does not raise: the trace is the data/seed prelude, the
build events, the path section (create both directories, dump the config,
create the optimizer) and the tail, and the outcome is decided by the two
possibly-unbound locals. -/
theorem main_char (home : String) (args : Args) (dt : String) (ms : ModelSetup)
    (ha : (["official", "senet"].contains args.attention_type) = true)
    (hs : setupModel args (effectiveModelName args) = .ok ms) :
    main home args dt =
      ([Event.loadDataSeq, Event.setSeed] ++ ms.events ++
        [Event.makeDirs (ckptDirOf home args.dataset ms.model_name args.batch_size
           args.epochs args.learning_rate args.optimizer_name dt),
         Event.makeDirs (logDirOf home args.dataset ms.model_name args.batch_size
           args.epochs args.learning_rate args.optimizer_name dt),
         Event.writeFile (joinPath (logDirOf home args.dataset ms.model_name args.batch_size
           args.epochs args.learning_rate args.optimizer_name dt) "config.json"),
         Event.createOptimizer] ++
        tailEvents args ms
          (ckptDirOf home args.dataset ms.model_name args.batch_size
            args.epochs args.learning_rate args.optimizer_name dt)
          (logDirOf home args.dataset ms.model_name args.batch_size
            args.epochs args.learning_rate args.optimizer_name dt),
       errAfterPaths args ms) := by
  have ha2 : args.attention_type = "official" ∨ args.attention_type = "senet" := by
    simpa using ha
  cases hl : lrScheduleFnOf args.lr_schedule with
  | none =>
      rcases ha2 with h2 | h2 <;>
        simp [main, h2, hs, hl, tailEvents, errAfterPaths]
  | some fn =>
      cases hm : ms.model with
      | none =>
          rcases ha2 with h2 | h2 <;>
            simp [main, h2, hs, hl, hm, tailEvents, errAfterPaths]
      | some mdl =>
          rcases ha2 with h2 | h2 <;> by_cases hv : args.validation_split > 0 <;>
            simp [main, h2, hs, hl, hm, hv, tailEvents, errAfterPaths]

/-! ## Claims -/

/-- C1: the ResNet depth computation returns `depth = n*6+2` for version 1 and
`depth = n*9+2` for version 2, for every integer `n`; in particular it returns
20 for `n = 3, version = 1` and 29 for `n = 3, version = 2`. -/
theorem computeDepth_formula :
    (∀ n : Int, computeDepth n 1 = some (n * 6 + 2) ∧ computeDepth n 2 = some (n * 9 + 2)) ∧
    computeDepth 3 1 = some 20 ∧ computeDepth 3 2 = some 29 := by
  refine ⟨fun n => ⟨by simp [computeDepth], by simp [computeDepth]⟩, ?_, ?_⟩ <;>
    norm_num [computeDepth]

/-- C2: `string2bool` returns `True` for `"True"`, `False` for `"False"`, and
raises an `ArgumentTypeError` for every other input string: it accepts exactly
these two strings. -/
theorem string2bool_spec (s : String) :
    string2bool s =
      if s = "True" then .ok (some true)
      else if s = "False" then .ok (some false)
      else .error (.argumentTypeError ("input(=" ++ s ++ ") NOT in [False, True]!")) := by
  by_cases h1 : s = "True"
  · subst h1
    simp [string2bool]
  · by_cases h2 : s = "False"
    · subst h2
      simp [string2bool]
    · simp [string2bool, h1, h2]

/-- C3: for every `attention_type` outside `["official", "senet"]`, the run
raises a `ValueError` from the argument-parsing guard (lines 88-91), and no
model object is ever built in that run. -/
theorem invalid_attention_type_raises (home : String) (args : Args) (dt : String)
    (h : args.attention_type ∉ ["official", "senet"]) :
    main home args dt =
      ([], some (.valueError ("args.attention_type " ++ args.attention_type ++
        " NOT in [official, senet]"))) ∧
    ∀ nm, Event.buildModel nm ∉ (main home args dt).1 := by
  have h2 : ¬args.attention_type = "official" ∧ ¬args.attention_type = "senet" := by
    simpa using h
  refine ⟨by simp [main, h2], fun nm => by simp [main, h2]⟩

/-- Witness for C3 at `attention_type = "wrong"`. -/
theorem invalid_attention_type_raises_witness :
    main "/home/user" { attention_type := "wrong" } "20200101-000000" =
      ([], some (.valueError ("args.attention_type " ++ "wrong" ++
        " NOT in [official, senet]"))) ∧
    ∀ nm, Event.buildModel nm ∉
      (main "/home/user" { attention_type := "wrong" } "20200101-000000").1 :=
  invalid_attention_type_raises "/home/user" { attention_type := "wrong" }
    "20200101-000000" (by decide)

/-- C4: for every invocation with dataset `"mnist"` and a `model_name` outside
the available-model list, `main` raises a `ValueError`. -/
theorem mnist_unknown_model_raises (home : String) (args : Args) (dt : String)
    (hd : args.dataset = "mnist") (hm : args.model_name ∉ available_models) :
    ∃ msg, (main home args dt).2 = some (.valueError msg) := by
  by_cases ha : (["official", "senet"].contains args.attention_type) = true
  · have hs : setupModel args (effectiveModelName args) =
        .error (.valueError ("args.model_name " ++ args.model_name ++
          " NOT in available_models")) := by
      rw [setupModel, hd]
      simp [hm]
    have ha2 : args.attention_type = "official" ∨ args.attention_type = "senet" := by
      simpa using ha
    refine ⟨"args.model_name " ++ args.model_name ++ " NOT in available_models", ?_⟩
    rcases ha2 with h2 | h2 <;> simp [main, h2, hs]
  · have hb : (["official", "senet"].contains args.attention_type) = false :=
      Bool.eq_false_iff.mpr ha
    have h2 : ¬args.attention_type = "official" ∧ ¬args.attention_type = "senet" := by
      simpa using hb
    refine ⟨"args.attention_type " ++ args.attention_type ++ " NOT in [official, senet]", ?_⟩
    simp [main, h2]

/-- Witness for C4 at the argparse defaults (dataset `"mnist"`, model name
`"NoModel"`). -/
theorem mnist_unknown_model_raises_witness :
    ∃ msg, (main "/home/user" {} "20200101-000000").2 = some (PyError.valueError msg) :=
  mnist_unknown_model_raises "/home/user" {} "20200101-000000" rfl (by decide)

/-- C5: in every run that reaches the path section, the directories created
are exactly the checkpoint and log directories, both derived from exactly the
dataset name, the run's model name, the batch size, the epoch count, the
learning rate, the optimizer name and the timestamp, joined as
`dataset/model_name/b{batch_size}-e{epochs}-lr{learning_rate}/optimizer_name/timestamp`
under the artifacts prefix (see `ckptDirOf`, `logDirOf`, `subfixOf`). -/
theorem run_dirs_formula (home : String) (args : Args) (dt : String) (ms : ModelSetup)
    (ha : args.attention_type ∈ ["official", "senet"])
    (hs : setupModel args (effectiveModelName args) = .ok ms) :
    Event.makeDirs (ckptDirOf home args.dataset ms.model_name args.batch_size
      args.epochs args.learning_rate args.optimizer_name dt) ∈ (main home args dt).1 ∧
    Event.makeDirs (logDirOf home args.dataset ms.model_name args.batch_size
      args.epochs args.learning_rate args.optimizer_name dt) ∈ (main home args dt).1 ∧
    ∀ d, Event.makeDirs d ∈ (main home args dt).1 →
      d = ckptDirOf home args.dataset ms.model_name args.batch_size
        args.epochs args.learning_rate args.optimizer_name dt ∨
      d = logDirOf home args.dataset ms.model_name args.batch_size
        args.epochs args.learning_rate args.optimizer_name dt := by
  have hab : (["official", "senet"].contains args.attention_type) = true := by
    simpa using ha
  rw [main_char home args dt ms hab hs]
  refine ⟨by simp, by simp, ?_⟩
  intro d hd
  simp at hd
  rcases hd with hd | hd | hd
  · obtain ⟨nm, hnm⟩ := setupModel_events_build args _ ms hs _ hd
    exact Event.noConfusion hnm
  · exact Or.inl hd
  · rcases hd with hd | hd
    · exact Or.inr hd
    · exact absurd hd (tail_no_makeDirs args ms _ _ d)

/-- Witness for C5 at `lenetArgs`. -/
theorem run_dirs_formula_witness :
    Event.makeDirs (ckptDirOf "/home/user" lenetArgs.dataset msLeNet.model_name
        lenetArgs.batch_size lenetArgs.epochs lenetArgs.learning_rate
        lenetArgs.optimizer_name "20200101-000000") ∈
      (main "/home/user" lenetArgs "20200101-000000").1 ∧
    Event.makeDirs (logDirOf "/home/user" lenetArgs.dataset msLeNet.model_name
        lenetArgs.batch_size lenetArgs.epochs lenetArgs.learning_rate
        lenetArgs.optimizer_name "20200101-000000") ∈
      (main "/home/user" lenetArgs "20200101-000000").1 :=
  ⟨(run_dirs_formula "/home/user" lenetArgs "20200101-000000" msLeNet (by decide)
      rfl).1,
   (run_dirs_formula "/home/user" lenetArgs "20200101-000000" msLeNet (by decide)
      rfl).2.1⟩

/-- C6: in every run that reaches the artifact-writing stage, the
configuration record is serialized exactly once, to `config.json` in that
run's log directory. -/
theorem config_dumped_once (home : String) (args : Args) (dt : String) (ms : ModelSetup)
    (ha : args.attention_type ∈ ["official", "senet"])
    (hs : setupModel args (effectiveModelName args) = .ok ms) :
    ((main home args dt).1.countP (fun e => e.isWriteFile)) = 1 ∧
    ∀ p, Event.writeFile p ∈ (main home args dt).1 →
      p = joinPath (logDirOf home args.dataset ms.model_name args.batch_size
        args.epochs args.learning_rate args.optimizer_name dt) "config.json" := by
  have hab : (["official", "senet"].contains args.attention_type) = true := by
    simpa using ha
  rw [main_char home args dt ms hab hs]
  constructor
  · rw [List.countP_append, List.countP_append, List.countP_append,
      setup_countP_writeFile args _ ms hs, tail_countP_writeFile args ms _ _]
    rfl
  · intro p hp
    simp at hp
    rcases hp with hp | hp | hp
    · obtain ⟨nm, hnm⟩ := setupModel_events_build args _ ms hs _ hp
      exact Event.noConfusion hnm
    · exact hp
    · exact absurd hp (tail_no_writeFile args ms _ _ p)

/-- Witness for C6 at `lenetArgs`. -/
theorem config_dumped_once_witness :
    ((main "/home/user" lenetArgs "20200101-000000").1.countP
      (fun e => e.isWriteFile)) = 1 :=
  (config_dumped_once "/home/user" lenetArgs "20200101-000000" msLeNet (by decide)
    rfl).1

/-- C7: in every run that reaches the path section, the log directory is
created before `config.json` is opened for writing in it, and whenever the
checkpoint callback is constructed, its path lies under the checkpoint
directory and the checkpoint directory was created before that
construction. -/
theorem dirs_created_before_use (home : String) (args : Args) (dt : String) (ms : ModelSetup)
    (ha : args.attention_type ∈ ["official", "senet"])
    (hs : setupModel args (effectiveModelName args) = .ok ms) :
    eventBefore (main home args dt).1
      (Event.makeDirs (logDirOf home args.dataset ms.model_name args.batch_size
        args.epochs args.learning_rate args.optimizer_name dt))
      (Event.writeFile (joinPath (logDirOf home args.dataset ms.model_name args.batch_size
        args.epochs args.learning_rate args.optimizer_name dt) "config.json")) ∧
    ∀ p, Event.createCheckpoint p ∈ (main home args dt).1 →
      p = joinPath (ckptDirOf home args.dataset ms.model_name args.batch_size
        args.epochs args.learning_rate args.optimizer_name dt) (ckptFilename ms.model_name) ∧
      eventBefore (main home args dt).1
        (Event.makeDirs (ckptDirOf home args.dataset ms.model_name args.batch_size
          args.epochs args.learning_rate args.optimizer_name dt))
        (Event.createCheckpoint p) := by
  have hab : (["official", "senet"].contains args.attention_type) = true := by
    simpa using ha
  rw [main_char home args dt ms hab hs]
  constructor
  · refine ⟨[Event.loadDataSeq, Event.setSeed] ++ ms.events ++
      [Event.makeDirs (ckptDirOf home args.dataset ms.model_name args.batch_size
        args.epochs args.learning_rate args.optimizer_name dt)], [],
      Event.createOptimizer :: tailEvents args ms
        (ckptDirOf home args.dataset ms.model_name args.batch_size
          args.epochs args.learning_rate args.optimizer_name dt)
        (logDirOf home args.dataset ms.model_name args.batch_size
          args.epochs args.learning_rate args.optimizer_name dt), ?_⟩
    simp
  · intro p hp
    have hptail : Event.createCheckpoint p ∈ tailEvents args ms
        (ckptDirOf home args.dataset ms.model_name args.batch_size
          args.epochs args.learning_rate args.optimizer_name dt)
        (logDirOf home args.dataset ms.model_name args.batch_size
          args.epochs args.learning_rate args.optimizer_name dt) := by
      simp at hp
      rcases hp with hp | hp
      · obtain ⟨nm, hnm⟩ := setupModel_events_build args _ ms hs _ hp
        exact Event.noConfusion hnm
      · exact hp
    refine ⟨tail_ckpt args ms _ _ p hptail, ?_⟩
    obtain ⟨t1, t2, ht⟩ := List.append_of_mem hptail
    rw [ht]
    refine ⟨[Event.loadDataSeq, Event.setSeed] ++ ms.events,
      [Event.makeDirs (logDirOf home args.dataset ms.model_name args.batch_size
        args.epochs args.learning_rate args.optimizer_name dt),
       Event.writeFile (joinPath (logDirOf home args.dataset ms.model_name args.batch_size
        args.epochs args.learning_rate args.optimizer_name dt) "config.json"),
       Event.createOptimizer] ++ t1, t2, ?_⟩
    simp

/-- Witness for C7 at `lenetArgs`: the log directory is created before the
configuration dump. -/
theorem dirs_created_before_use_witness :
    eventBefore (main "/home/user" lenetArgs "20200101-000000").1
      (Event.makeDirs (logDirOf "/home/user" lenetArgs.dataset msLeNet.model_name
        lenetArgs.batch_size lenetArgs.epochs lenetArgs.learning_rate
        lenetArgs.optimizer_name "20200101-000000"))
      (Event.writeFile (joinPath (logDirOf "/home/user" lenetArgs.dataset msLeNet.model_name
        lenetArgs.batch_size lenetArgs.epochs lenetArgs.learning_rate
        lenetArgs.optimizer_name "20200101-000000") "config.json")) :=
  (dirs_created_before_use "/home/user" lenetArgs "20200101-000000" msLeNet (by decide)
    rfl).1

/-- C8 counterexample: at the argparse defaults (`lr_schedule = "no_schedule"`,
dataset `"mnist"`, model name `"NoModel"`) the run fails with the
`ValueError` of the model-name check, not with an unbound-local error at the
`LearningRateScheduler` construction, so the claim does not hold of every
invocation with a non-scheduler `lr_schedule`. -/
theorem lr_schedule_unbound_counterexample :
    ({} : Args).lr_schedule = "no_schedule" ∧
    (main "/home/user" {} "20200101-000000").2 =
      some (PyError.valueError ("args.model_name " ++ "NoModel" ++
        " NOT in available_models")) ∧
    (main "/home/user" {} "20200101-000000").2 ≠
      some (PyError.unboundLocalError "lr_schedule_fn") := by
  refine ⟨rfl, rfl, ?_⟩
  intro h
  rw [show (main "/home/user" {} "20200101-000000").2 =
    some (PyError.valueError ("args.model_name " ++ "NoModel" ++
      " NOT in available_models")) from rfl] at h
  simp at h

/-- C8 (amended): for every invocation that passes the `attention_type` guard
and whose model setup does not raise, if `lr_schedule` is neither
`"cifar10_scheduler"` nor `"keras_lr_scheduler"` (in particular at its default
`"no_schedule"`), then `lr_schedule_fn` is never assigned and the run stops
with an unbound-local error at the `LearningRateScheduler` construction: no
scheduler is created and no training is started. -/
theorem lr_schedule_fn_unbound (home : String) (args : Args) (dt : String) (ms : ModelSetup)
    (ha : args.attention_type ∈ ["official", "senet"])
    (hs : setupModel args (effectiveModelName args) = .ok ms)
    (h1 : args.lr_schedule ≠ "cifar10_scheduler")
    (h2 : args.lr_schedule ≠ "keras_lr_scheduler") :
    lrScheduleFnOf args.lr_schedule = none ∧
    (main home args dt).2 = some (.unboundLocalError "lr_schedule_fn") ∧
    (∀ fn, Event.createLRScheduler fn ∉ (main home args dt).1) ∧
    (∀ t v, Event.fit t v ∉ (main home args dt).1) := by
  have hl : lrScheduleFnOf args.lr_schedule = none := by
    simp [lrScheduleFnOf, h1, h2]
  have hab : (["official", "senet"].contains args.attention_type) = true := by
    simpa using ha
  rw [main_char home args dt ms hab hs]
  rw [tail_of_no_schedule args ms _ _ hl]
  refine ⟨hl, by simp [errAfterPaths, hl], ?_, ?_⟩
  · intro fn hmem
    simp at hmem
    obtain ⟨nm, hnm⟩ := setupModel_events_build args _ ms hs _ hmem
    exact Event.noConfusion hnm
  · intro t v hmem
    simp at hmem
    obtain ⟨nm, hnm⟩ := setupModel_events_build args _ ms hs _ hmem
    exact Event.noConfusion hnm

/-- Witness for the amended C8 at `lenetArgs`. -/
theorem lr_schedule_fn_unbound_witness :
    lrScheduleFnOf lenetArgs.lr_schedule = none ∧
    (main "/home/user" lenetArgs "20200101-000000").2 =
      some (PyError.unboundLocalError "lr_schedule_fn") :=
  ⟨(lr_schedule_fn_unbound "/home/user" lenetArgs "20200101-000000" msLeNet
      (by decide) rfl (by decide) (by decide)).1,
   (lr_schedule_fn_unbound "/home/user" lenetArgs "20200101-000000" msLeNet
      (by decide) rfl (by decide) (by decide)).2.1⟩

/-- C9 counterexample: for dataset `"mnist"` with the accepted model name
`"LeNet5"` and the default `lr_schedule = "no_schedule"`, the run fails with
the unbound-local error for `lr_schedule_fn` at the scheduler construction
(line 196), not with an unbound-local error for `model` at `model.compile`
(line 204), so the claimed failure point is wrong for such invocations. -/
theorem model_unbound_counterexample :
    lenetArgs.dataset = "mnist" ∧
    (main "/home/user" lenetArgs "20200101-000000").2 =
      some (PyError.unboundLocalError "lr_schedule_fn") ∧
    (main "/home/user" lenetArgs "20200101-000000").2 ≠
      some (PyError.unboundLocalError "model") := by
  refine ⟨rfl, rfl, ?_⟩
  intro h
  rw [show (main "/home/user" lenetArgs "20200101-000000").2 =
    some (PyError.unboundLocalError "lr_schedule_fn") from rfl] at h
  simp at h

/-- C9 (amended): for every `"mnist"` invocation that passes validation, the
`model` local is assigned exactly when the effective (attention-rewritten)
model name is in the ResNet family; when additionally `lr_schedule` selects
one of the two schedulers (so that `lr_schedule_fn` is assigned) and the
effective name is outside the ResNet family, the run fails with an
unbound-local error for `model` at `model.compile`, before any training. -/
theorem mnist_model_assignment (home : String) (args : Args) (dt : String) (ms : ModelSetup)
    (ha : args.attention_type ∈ ["official", "senet"])
    (hd : args.dataset = "mnist")
    (hs : setupModel args (effectiveModelName args) = .ok ms) :
    (ms.model = if effectiveModelName args ∈ resnet_family
      then some (effectiveModelName args) else none) ∧
    (∀ fn, lrScheduleFnOf args.lr_schedule = some fn →
      effectiveModelName args ∉ resnet_family →
      ms.model = none ∧
      (main home args dt).2 = some (.unboundLocalError "model") ∧
      (∀ nm, Event.compileModel nm ∉ (main home args dt).1) ∧
      (∀ t v, Event.fit t v ∉ (main home args dt).1)) := by
  obtain ⟨hmn, hmod, hav⟩ := setupModel_mnist args (effectiveModelName args) ms hd hs
  refine ⟨hmod, fun fn hl hr => ?_⟩
  have hm0 : ms.model = none := by rw [hmod, if_neg hr]
  have hab : (["official", "senet"].contains args.attention_type) = true := by
    simpa using ha
  rw [main_char home args dt ms hab hs]
  rw [tail_of_no_model args ms _ _ fn hl hm0]
  refine ⟨hm0, by simp [errAfterPaths, hl, hm0], ?_, ?_⟩
  · intro nm hmem
    simp at hmem
    obtain ⟨x, hx⟩ := setupModel_events_build args _ ms hs _ hmem
    exact Event.noConfusion hx
  · intro t v hmem
    simp at hmem
    obtain ⟨x, hx⟩ := setupModel_events_build args _ ms hs _ hmem
    exact Event.noConfusion hx

/-- Witness for the amended C9 at `lenetSchedArgs`. -/
theorem mnist_model_assignment_witness :
    (msLeNet.model = if effectiveModelName lenetSchedArgs ∈ resnet_family
      then some (effectiveModelName lenetSchedArgs) else none) ∧
    (main "/home/user" lenetSchedArgs "20200101-000000").2 =
      some (PyError.unboundLocalError "model") :=
  ⟨(mnist_model_assignment "/home/user" lenetSchedArgs "20200101-000000" msLeNet
      (by decide) rfl rfl).1,
   ((mnist_model_assignment "/home/user" lenetSchedArgs "20200101-000000" msLeNet
      (by decide) rfl rfl).2 "cifar10_scheduler" rfl (by decide)).2.1⟩

/-- C10: for every invocation with `validation_split > 0`, any `fit` call in
the run trace takes the full CIFAR-10 test set as its validation data, and
the validation subset produced by `train_test_split` is never passed to
`model.fit` in either position. -/
theorem validation_data_is_test_set (home : String) (args : Args) (dt : String)
    (hv : args.validation_split > 0) :
    ∀ t v, Event.fit t v ∈ (main home args dt).1 →
      v = DataRef.testSet ∧ t ≠ DataRef.valSplit ∧ v ≠ DataRef.valSplit := by
  intro t v hmem
  by_cases ha : (["official", "senet"].contains args.attention_type) = true
  · rcases hsc : setupModel args (effectiveModelName args) with e | ms
    · have ha2 : args.attention_type = "official" ∨ args.attention_type = "senet" := by
        simpa using ha
      rcases ha2 with h2 | h2 <;> simp [main, h2, hsc] at hmem
    · rw [main_char home args dt ms ha hsc] at hmem
      simp at hmem
      rcases hmem with hmem | hmem
      · obtain ⟨x, hx⟩ := setupModel_events_build args _ ms hsc _ hmem
        exact Event.noConfusion hx
      · exact tail_fit args ms _ _ t v hmem
  · have hb : (["official", "senet"].contains args.attention_type) = false :=
      Bool.eq_false_iff.mpr ha
    have h2 : ¬args.attention_type = "official" ∧ ¬args.attention_type = "senet" := by
      simpa using hb
    simp [main, h2] at hmem

/-- Witness for C10 at `resnetArgs` (validation split 1): the `fit` event of
that run takes the test set as validation data. -/
theorem validation_data_is_test_set_witness :
    DataRef.testSet = DataRef.testSet ∧ DataRef.trainSplit ≠ DataRef.valSplit ∧
      DataRef.testSet ≠ DataRef.valSplit :=
  validation_data_is_test_set "/home/user" resnetArgs "20200101-000000" (by norm_num [resnetArgs])
    DataRef.trainSplit DataRef.testSet (by
      rw [main_char "/home/user" resnetArgs "20200101-000000" msResNet (by decide) rfl]
      simp [tailEvents, msResNet, lrScheduleFnOf, resnetArgs])

end TrainResnetCifar10
